import Mathlib

/-!
The per-service probing engine of petze (`watch/watch.go`).

A shallow embedding of the probe executor `watch`, of the dial interceptors
installed by `getClientAndDialErrRecorder`, and of the control flow of
`Watcher.watchLoop`, followed by the properties established about them.

Conventions of the embedding

* Go `error` values are records of their message and of what their `Timeout()`
  method answers (`false` for a value without such a method).
* `time.Time` is a number of nanoseconds on the wall clock, `time.Duration` a
  number of nanoseconds; `Time.Sub` saturates as in the Go library.
* Everything outside the repository that a probe talks to (request
  construction, host:port splitting, the resolver, the HTTP transport, the
  clock) is a field of `World`; the transport is described by the dial
  callbacks it invokes, in order, and by what `client.Do` finally returns.
* The pointer `errRecorder` shared by the client and by `watch` becomes a
  recorder value threaded through every function that can write to it.
-/

set_option linter.dupNamespace false

namespace Petze

/-! ## Result / Error model -/

abbrev ErrorType := String

def ErrorInvalidEndpoint : ErrorType := "endpointInvalid"
def ErrorTypeServerTooSlow : ErrorType := "serverTooSlow"
def ErrorTypeNotImplemented : ErrorType := "notImplemented"
def ErrorTypeUnknownError : ErrorType := "unknownError"
def ErrorTypeClientError : ErrorType := "clientError"
def ErrorTypeDNS : ErrorType := "dns"
def ErrorTypeDNSConfig : ErrorType := "dnsConfig"
def ErrorTypeTLSCertificateInvalid : ErrorType := "tlsCertificateInvalid"
def ErrorTypeTLSHostNameError : ErrorType := "tlsHostNameError"
def ErrorTypeTLSSystemRootsError : ErrorType := "tlsSystemRootsError"
def ErrorTypeTLSUnknownAuthority : ErrorType := "tlsUnknownAutority"
def ErrorTypeWrongHTTPStatusCode : ErrorType := "wrongHTTPStatus"
def ErrorTypeCertificateIsExpiring : ErrorType := "certificateIsExpiring"
def ErrorTypeUnexpectedContentType : ErrorType := "unexpectedContentType"
def ErrorTypeSessionFail : ErrorType := "sessionFail"

/-- A Go `error` value: its `Error()` text and the answer of its `Timeout()`
method (`false` when the value has no such method). -/
structure GoError where
  msg : String
  timeout : Bool
deriving DecidableEq, Repr

/-- The record `Error` of watch.go; the field `Type` is spelled `Type_`. -/
structure Error where
  Error : String
  Type_ : ErrorType
  Comment : String
deriving DecidableEq, Repr

/-- The record `Result` of watch.go. -/
structure Result where
  ID : String
  Errors : List Error
  Timeout : Bool
  Timestamp : Int
  RunTime : Int
deriving DecidableEq, Repr

/-- The constructor `NewResult(id)`; `now` is the reading of `time.Now()`. -/
def NewResult (id : String) (now : Int) : Result :=
  { ID := id, Errors := [], Timeout := false, Timestamp := now, RunTime := 0 }

/-- The package-level `addError(errors, err, t, comment)`. -/
def addError (errors : List Error) (err : GoError) (t : ErrorType) (comment : String) :
    List Error :=
  errors ++ [{ Error := err.msg, Type_ := t, Comment := comment }]

/-- The method `(r *Result) addError(e, t, comment)`. -/
def Result.addError (r : Result) (e : GoError) (t : ErrorType) (comment : String) : Result :=
  { r with Errors := Petze.addError r.Errors e t comment }

/-! ## Fault recorder and dial interceptors -/

/-- The struct `dialerErrRecorder`: the warning list and the eight failure slots
(`none` is Go's `nil`). -/
structure dialerErrRecorder where
  errors : List Error
  unknownErr : Option GoError
  err : Option GoError
  dnsError : Option GoError
  dnsConfigError : Option GoError
  tlsCertificateInvalidError : Option GoError
  tlsHostnameError : Option GoError
  tlsSystemRootsError : Option GoError
  tlsUnknownAuthorityError : Option GoError
deriving DecidableEq, Repr

/-- The recorder `getClientAndDialErrRecorder` allocates: an empty warning list
and all slots nil. -/
def newRecorder : dialerErrRecorder :=
  { errors := [], unknownErr := none, err := none, dnsError := none, dnsConfigError := none,
    tlsCertificateInvalidError := none, tlsHostnameError := none,
    tlsSystemRootsError := none, tlsUnknownAuthorityError := none }

def maxDuration : Int := 2 ^ 63 - 1
def minDuration : Int := -(2 ^ 63)

/-- The method `t.Sub(u)` of the Go library on wall-clock readings: the difference, saturated
to the range of `time.Duration`. -/
def timeSub (t u : Int) : Int :=
  if t - u > maxDuration then maxDuration
  else if t - u < minDuration then minDuration
  else t - u

def Hour : Int := 3600 * 1000000000

/-- The threshold `time.Hour*7*24` of the certificate check. -/
def expiryWindow : Int := Hour * 7 * 24

/-- A peer certificate as the loop over `connectionState.PeerCertificates` meets
it: subject common name, `NotAfter`, the text `NotAfter.String()` prints (it
depends on the location of the value, which is not modelled), and the reading of
`time.Now()` taken in that iteration. -/
structure PeerCert where
  commonName : String
  notAfter : Int
  notAfterText : String
  now : Int
deriving DecidableEq, Repr

/-- The helper `fmtFrac` of the Go library: the last `prec` decimal digits of `v`
without their trailing zeros, behind a '.', put in front of `buf` (nothing is
added when they are all zero), and `v` without these digits. `print` tells
whether a non-zero digit has been met. -/
def fmtFrac : Nat → Nat → Bool → List Char → List Char × Nat
  | 0, v, print, buf => (if print then '.' :: buf else buf, v)
  | prec + 1, v, print, buf =>
    fmtFrac prec (v / 10) (print || v % 10 != 0)
      (if print || v % 10 != 0 then Char.ofNat (v % 10 + 48) :: buf else buf)

/-- The method `Duration.String()` of the Go library: hours, minutes and seconds
with a fraction, or a single smaller unit below one second. -/
def durationString (d : Int) : String :=
  let u := d.natAbs
  let body : String :=
    if u < 1000000000 then
      if u = 0 then "0s"
      else if u < 1000 then toString u ++ "ns"
      else if u < 1000000 then
        toString (fmtFrac 3 u false []).2 ++ String.mk (fmtFrac 3 u false []).1 ++ "µs"
      else
        toString (fmtFrac 6 u false []).2 ++ String.mk (fmtFrac 6 u false []).1 ++ "ms"
    else
      let frac := String.mk (fmtFrac 9 u false []).1
      let secs := (fmtFrac 9 u false []).2
      if secs / 60 > 0 then
        (if secs / 60 / 60 > 0 then toString (secs / 60 / 60) ++ "h" else "") ++
          toString (secs / 60 % 60) ++ "m" ++ toString (secs % 60) ++ frac ++ "s"
      else toString (secs % 60) ++ frac ++ "s"
  if d < 0 then "-" ++ body else body

/-- The local `durationUntilExpiry := cert.NotAfter.Sub(time.Now())`. -/
def durationUntilExpiry (c : PeerCert) : Int := timeSub c.notAfter c.now

/-- The error value built by `errors.New(fmt.Sprint(...))` in the certificate
check: `fmt.Sprint` prints `cert.NotAfter` and the duration through their
`String()` methods and puts no blank between the operands, every second one
being a string. -/
def expiryError (c : PeerCert) : GoError :=
  { msg := "cert CN=\"" ++ c.commonName ++ "\" is expiring in less than 24h: " ++
      c.notAfterText ++ ", left: " ++ durationString (durationUntilExpiry c),
    timeout := false }

/-- The body of `for _, cert := range connectionState.PeerCertificates`. -/
def checkCertificates (errors : List Error) : List PeerCert → List Error
  | [] => errors
  | cert :: rest =>
    if durationUntilExpiry cert < expiryWindow then
      checkCertificates (addError errors (expiryError cert) ErrorTypeCertificateIsExpiring "") rest
    else
      checkCertificates errors rest

/-- The dynamic type of a non-nil `tlsErr`, as the `switch reflect.TypeOf(tlsErr)`
of `dialTLS` distinguishes it. -/
inductive TLSErrorKind where
  | unknownAuthority
  | hostname
  | certificateInvalid
  | systemRoots
  | other
deriving DecidableEq, Repr

/-- What `tls.DialWithDialer` returned: a connection with its peer certificates
(`tlsErr == nil`) or an error of some dynamic type. -/
inductive TLSDialOutcome where
  | connected (peerCertificates : List PeerCert)
  | failed (kind : TLSErrorKind) (e : GoError)
deriving DecidableEq, Repr

/-- The closure `dialTLS`, as a transformer of the recorder it captures. -/
def dialTLS (errRecorder : dialerErrRecorder) : TLSDialOutcome → dialerErrRecorder
  | .connected certs =>
    { errRecorder with errors := checkCertificates errRecorder.errors certs }
  | .failed .unknownAuthority e => { errRecorder with tlsUnknownAuthorityError := some e }
  | .failed .hostname e => { errRecorder with tlsHostnameError := some e }
  | .failed .certificateInvalid e => { errRecorder with tlsCertificateInvalidError := some e }
  | .failed .systemRoots e => { errRecorder with tlsSystemRootsError := some e }
  | .failed .other _ => errRecorder

/-- What `dialer.Dial` returned: a connection, a `*net.OpError` (told apart by the
dynamic type of its field `Err`, which is carried along), or an error of another
type, which `dial` asserts to be a `net.Error`. -/
inductive DialOutcome where
  | connected
  | opErrDNSConfig (inner : GoError)
  | opErrDNS (inner : GoError)
  | opErrOther (inner : GoError)
  | notOpErr (e : GoError)
deriving DecidableEq, Repr

/-- The closure `dial`, as a transformer of the recorder it captures. -/
def dial (errRecorder : dialerErrRecorder) : DialOutcome → dialerErrRecorder
  | .connected => errRecorder
  | .opErrDNSConfig inner => { errRecorder with dnsConfigError := some inner }
  | .opErrDNS inner => { errRecorder with dnsError := some inner }
  | .opErrOther inner => { errRecorder with unknownErr := some inner }
  | .notOpErr e => { errRecorder with err := some e }

/-- One invocation of a dial callback by the transport. -/
inductive DialCall where
  | tls (outcome : TLSDialOutcome)
  | plain (outcome : DialOutcome)
deriving DecidableEq, Repr

def DialCall.run (errRecorder : dialerErrRecorder) : DialCall → dialerErrRecorder
  | .tls o => dialTLS errRecorder o
  | .plain o => dial errRecorder o

/-- The recorder after the transport made the given callback invocations in order. -/
def runDials (errRecorder : dialerErrRecorder) (calls : List DialCall) : dialerErrRecorder :=
  calls.foldl DialCall.run errRecorder

/-! ## The probe executor -/

/-- The fields of `config.Service` that watch.go reads. -/
structure Service where
  ID : String
  Endpoint : String
  Interval : Int
deriving DecidableEq, Repr

/-- The field of `*http.Request` that `watch` reads. -/
structure Request where
  Host : String
deriving DecidableEq, Repr

/-- The field of `*http.Response` that `watch` reads. -/
structure Response where
  StatusCode : Int
deriving DecidableEq, Repr

/-- One call of `client.Do`: the dial callbacks the transport invoked, then the
returned error or response. -/
structure RoundTrip where
  dials : List DialCall
  outcome : Except GoError Response

/-- Modelled from the spec: `runSession` (its file is not among the sources). The
session runner receives the service, the current Result and the client, and
"returns success or a typed failure"; through its arguments it can append Errors
to the Result and make the client dial. -/
structure SessionOutcome where
  added : List Error
  dials : List DialCall
  failure : Option GoError

/-- The environment of one probe. -/
structure World where
  now : Int
  since : Int
  newRequest : String → Except GoError Request
  splitHostPort : String → Except GoError String
  lookupIP : String → Option GoError
  clientDo : Request → RoundTrip
  runSession : Service → SessionOutcome

/-- The library function `strings.Split(s, sep)` for a one-character separator, on
character lists. -/
def splitChars (sep : Char) : List Char → List (List Char)
  | [] => [[]]
  | c :: cs =>
    if c = sep then [] :: splitChars sep cs
    else
      match splitChars sep cs with
      | [] => [[c]]
      | p :: ps => (c :: p) :: ps

/-- The call `strings.Split(host, ":")`. -/
def stringsSplitColon (host : String) : List String :=
  (splitChars ':' host.toList).map String.mk

/-- The `switch true` of `watch` over the recorder slots: the Result after the
first matching case, and the value left in `netErr`. -/
def classify (r : Result) (errRecorder : dialerErrRecorder) : Result × Option GoError :=
  match errRecorder.tlsHostnameError with
  | some e => (r.addError e ErrorTypeTLSHostNameError "", none)
  | none =>
  match errRecorder.tlsSystemRootsError with
  | some e => (r.addError e ErrorTypeTLSSystemRootsError "", none)
  | none =>
  match errRecorder.tlsUnknownAuthorityError with
  | some e => (r.addError e ErrorTypeTLSUnknownAuthority "", none)
  | none =>
  match errRecorder.tlsCertificateInvalidError with
  | some e => (r.addError e ErrorTypeTLSCertificateInvalid "", none)
  | none =>
  match errRecorder.unknownErr with
  | some e => (r.addError e ErrorTypeUnknownError "", none)
  | none =>
  match errRecorder.dnsConfigError with
  | some e => (r.addError e ErrorTypeDNSConfig "", some e)
  | none =>
  match errRecorder.dnsError with
  | some e => (r.addError e ErrorTypeDNS "", some e)
  | none =>
  match errRecorder.err with
  | some e => (r.addError e ErrorTypeUnknownError "", some e)
  | none => (r, none)

/-- The part of `watch` from `client.Do(request)` on. -/
def doAndReport (service : Service) (w : World) (r : Result) (request : Request)
    (errRecorder : dialerErrRecorder) : Result × dialerErrRecorder :=
  let rt := w.clientDo request
  let errRecorder := runDials errRecorder rt.dials
  let r := { r with Errors := r.Errors ++ errRecorder.errors }
  match rt.outcome with
  | .error err =>
    let r := r.addError err ErrorTypeClientError ""
    let (r, netErr) := classify r errRecorder
    match netErr with
    | some ne => ({ r with Timeout := ne.timeout }, errRecorder)
    | none => (r, errRecorder)
  | .ok response =>
    let s := w.runSession service
    let r := { r with Errors := r.Errors ++ s.added }
    let errRecorder := runDials errRecorder s.dials
    let r := match s.failure with
      | some errSession => r.addError errSession ErrorTypeSessionFail ""
      | none => r
    let r := { r with RunTime := w.since }
    if response.StatusCode ≠ 200 then
      (r.addError { msg := "unexpected status code: " ++ toString response.StatusCode,
                    timeout := false } ErrorTypeWrongHTTPStatusCode "", errRecorder)
    else
      (r, errRecorder)

/-- The function `watch`: the Result of one probe and the recorder it leaves. -/
def watch (service : Service) (w : World) (errRecorder : dialerErrRecorder) :
    Result × dialerErrRecorder :=
  let r := NewResult service.ID w.now
  match w.newRequest service.Endpoint with
  | .error err => (r.addError err ErrorInvalidEndpoint "", errRecorder)
  | .ok request =>
    if request.Host.length > 0 then
      if (stringsSplitColon request.Host).length > 1 then
        match w.splitHostPort request.Host with
        | .error err => (r.addError err ErrorInvalidEndpoint "", errRecorder)
        | .ok host =>
          match w.lookupIP host with
          | some lookupErr => (r.addError lookupErr ErrorTypeDNS "", errRecorder)
          | none => doAndReport service w r request errRecorder
      else
        match w.lookupIP request.Host with
        | some lookupErr => (r.addError lookupErr ErrorTypeDNS "", errRecorder)
        | none => doAndReport service w r request errRecorder
    else
      doAndReport service w r request errRecorder

/-- The condition under which `watch` reaches `client.Do(request)`: the endpoint
parses, and the DNS pre-check is skipped (empty host) or succeeds on the host it
looks up. -/
def ReachesRoundTrip (service : Service) (w : World) (request : Request) : Prop :=
  w.newRequest service.Endpoint = .ok request ∧
  (request.Host.length = 0 ∨
   (':' ∉ request.Host.toList ∧ w.lookupIP request.Host = none) ∨
   (':' ∈ request.Host.toList ∧
      ∃ host, w.splitHostPort request.Host = .ok host ∧ w.lookupIP host = none))

/-! ## The watcher loop -/

/-- The struct `Watcher`. -/
structure Watcher where
  active : Bool
  service : Service
deriving DecidableEq, Repr

/-- Where the goroutine running `watchLoop` stands. -/
inductive LoopPoint where
  /-- about to evaluate the condition of `for w.active` -/
  | loopCondition
  /-- inside the call `watch(w.service, httpClient, errRecorder)` -/
  | inWatch
  /-- about to evaluate `if w.active` -/
  | ifActive
  /-- about to execute `chanResult <- *r` -/
  | send
  /-- about to execute `time.Sleep(w.service.Interval)` -/
  | sleep
  /-- the loop has been left -/
  | returned
deriving DecidableEq, Repr

/-- The watcher, the position of its goroutine, the recorder and the local `r` of
`watchLoop`, and the values sent on `chanResult` so far. -/
structure LoopState where
  w : Watcher
  point : LoopPoint
  errRecorder : dialerErrRecorder
  r : Option Result
  chanResult : List Result

/-- The steps of a watcher: those of the goroutine, and `stop`, the call of
`Watcher.Stop` from outside. -/
inductive Event where
  /-- the condition of `for w.active` reads true and `watch` is called -/
  | probeStart
  /-- the condition of `for w.active` reads false and `watchLoop` returns -/
  | loopExit
  /-- the call of `watch` returns, having run in the given environment -/
  | probeEnd (world : World)
  /-- the condition of `if w.active` reads true -/
  | activeSeen
  /-- the condition of `if w.active` reads false -/
  | inactiveSeen
  /-- the send `chanResult <- *r` completes -/
  | publish
  /-- the call of `time.Sleep` returns -/
  | sleep
  /-- the assignment `w.active = false` in `Stop` -/
  | stop

def Event.isProbeStart : Event → Bool
  | .probeStart => true
  | _ => false

def Event.isPublish : Event → Bool
  | .publish => true
  | _ => false

/-- The function `Watch(service, chanResult)`: an active watcher whose goroutine is about to
enter the loop with the recorder of `getClientAndDialErrRecorder`. -/
def Watch (service : Service) : LoopState :=
  { w := { active := true, service := service }, point := .loopCondition,
    errRecorder := newRecorder, r := none, chanResult := [] }

/-- One step; `none` when the event cannot happen in the state. -/
def step (s : LoopState) : Event → Option LoopState
  | .stop => some { s with w := { s.w with active := false } }
  | .probeStart =>
    if s.point = .loopCondition ∧ s.w.active = true then some { s with point := .inWatch }
    else none
  | .loopExit =>
    if s.point = .loopCondition ∧ s.w.active = false then some { s with point := .returned }
    else none
  | .probeEnd world =>
    if s.point = .inWatch then
      let (r, errRecorder) := watch s.w.service world s.errRecorder
      some { s with point := .ifActive, r := some r, errRecorder := errRecorder }
    else none
  | .activeSeen =>
    if s.point = .ifActive ∧ s.w.active = true then some { s with point := .send } else none
  | .inactiveSeen =>
    if s.point = .ifActive ∧ s.w.active = false then some { s with point := .loopCondition }
    else none
  | .publish =>
    if s.point = .send then
      match s.r with
      | some r => some { s with point := .sleep, chanResult := s.chanResult ++ [r] }
      | none => none
    else none
  | .sleep =>
    if s.point = .sleep then some { s with point := .loopCondition } else none

/-- The state after a sequence of steps, when each can happen in turn. -/
def run (s : LoopState) : List Event → Option LoopState
  | [] => some s
  | e :: es =>
    match step s e with
    | some s' => run s' es
    | none => none

/-- The Results of the successive calls of `watch` made by one `watchLoop`, one
per environment, all on the same recorder. -/
def probeCycles (service : Service) (errRecorder : dialerErrRecorder) :
    List World → List Result
  | [] => []
  | w :: ws =>
    (watch service w errRecorder).1 :: probeCycles service (watch service w errRecorder).2 ws

/-! ## Vocabulary of the specification -/

/-- The failure slots in the priority order of the tie-break, each with the tag
its Error gets. -/
def slotsInPriorityOrder (rec : dialerErrRecorder) : List (ErrorType × Option GoError) :=
  [("tlsHostNameError", rec.tlsHostnameError),
   ("tlsSystemRootsError", rec.tlsSystemRootsError),
   ("tlsUnknownAutority", rec.tlsUnknownAuthorityError),
   ("tlsCertificateInvalid", rec.tlsCertificateInvalidError),
   ("unknownError", rec.unknownErr),
   ("dnsConfig", rec.dnsConfigError),
   ("dns", rec.dnsError),
   ("unknownError", rec.err)]

/-- The first non-empty slot in priority order, with its tag. -/
def firstNonEmptySlot (rec : dialerErrRecorder) : Option (ErrorType × GoError) :=
  (slotsInPriorityOrder rec).findSome? fun p => p.2.map fun e => (p.1, e)

/-- One for a non-empty slot, zero for an empty one. -/
def slotCount (o : Option GoError) : Nat := if o.isSome then 1 else 0

/-- The number of non-empty failure slots. -/
def nonEmptySlots (rec : dialerErrRecorder) : Nat :=
  (slotsInPriorityOrder rec).countP fun p => p.2.isSome

/-- A certificate whose `notAfter` is less than 7×24 hours after the clock reading. -/
def nearExpiry (c : PeerCert) : Prop :=
  c.notAfter - c.now < 7 * 24 * 3600 * 1000000000

instance (c : PeerCert) : Decidable (nearExpiry c) :=
  inferInstanceAs (Decidable (c.notAfter - c.now < 7 * 24 * 3600 * 1000000000))

/-- The Error tagged "certificateIsExpiring" for a certificate. -/
def certWarning (c : PeerCert) : Error :=
  { Error := (expiryError c).msg, Type_ := "certificateIsExpiring", Comment := "" }

/-- The near-expiry certificates met in the successful handshakes among the given
callback invocations, in order. -/
def expiringCerts : List DialCall → List PeerCert
  | [] => []
  | .tls (.connected certs) :: calls => certs.filter (fun c => nearExpiry c) ++ expiringCerts calls
  | _ :: calls => expiringCerts calls

/-- A probe in which the endpoint parses, the DNS pre-check passes, the round trip
returns status 200 and the session runner reports nothing. -/
def HealthyProbe (service : Service) (w : World) (request : Request) : Prop :=
  ReachesRoundTrip service w request ∧
  (∃ response, (w.clientDo request).outcome = .ok response ∧ response.StatusCode = 200) ∧
  (w.runSession service).failure = none ∧ (w.runSession service).added = []

/-- The Errors a probe owes to the session runner: those it appended itself, then
the "sessionFail" Error for the failure it returned. -/
def sessionErrors (s : SessionOutcome) : List Error :=
  s.added ++
    match s.failure with
    | some errSession => [{ Error := errSession.msg, Type_ := "sessionFail", Comment := "" }]
    | none => []

/-- The Error tagged "wrongHTTPStatus" for a status code. -/
def wrongStatusError (code : Int) : Error :=
  { Error := "unexpected status code: " ++ toString code, Type_ := "wrongHTTPStatus",
    Comment := "" }

/-- The eight failure slots of the recorder, in the priority order of the
tie-break. -/
inductive Slot where
  | tlsHostname
  | tlsSystemRoots
  | tlsUnknownAuthority
  | tlsCertificateInvalid
  | unknown
  | dnsConfig
  | dns
  | net
deriving DecidableEq, Repr

/-- The content of a slot in a recorder. -/
def Slot.get (s : Slot) (rec : dialerErrRecorder) : Option GoError :=
  match s with
  | .tlsHostname => rec.tlsHostnameError
  | .tlsSystemRoots => rec.tlsSystemRootsError
  | .tlsUnknownAuthority => rec.tlsUnknownAuthorityError
  | .tlsCertificateInvalid => rec.tlsCertificateInvalidError
  | .unknown => rec.unknownErr
  | .dnsConfig => rec.dnsConfigError
  | .dns => rec.dnsError
  | .net => rec.err

/-- What a server answers to one GET: the status code and the `Location` header,
if there is one. -/
structure Answer where
  StatusCode : Int
  Location : Option String
deriving DecidableEq, Repr

/-- The status codes on which `http.Client.Do` redirects a GET. -/
def isRedirectStatus (code : Int) : Bool :=
  decide (code = 301) || decide (code = 302) || decide (code = 303) ||
    decide (code = 307) || decide (code = 308)

/-- What `http.Client.Do` of the Go library returns for a GET of `url` when the
client has no `CheckRedirect`, which is how `getClientAndDialErrRecorder` builds
its client: an answer with a redirect status and a `Location` is followed to that
location, and the request after the tenth is refused. The number counts the
requests still allowed. -/
def clientDoFollowing (server : String → Answer) : Nat → String → Except GoError Response
  | 0, _ => .error { msg := "stopped after 10 redirects", timeout := false }
  | budget + 1, url =>
    if isRedirectStatus (server url).StatusCode then
      match (server url).Location with
      | some location => clientDoFollowing server budget location
      | none => .ok { StatusCode := (server url).StatusCode }
    else .ok { StatusCode := (server url).StatusCode }

/-! ## Sample data -/

def sampleService : Service :=
  { ID := "shop", Endpoint := "https://shop.example:8443/", Interval := 30000000000 }

def sampleRequest : Request := { Host := "shop.example:8443" }

/-- A session runner that reports nothing. -/
def quietSession : SessionOutcome := { added := [], dials := [], failure := none }

/-- An environment in which everything works: requests are built, hosts split and
resolve, and the round trip is the given one. -/
def worldWith (rt : RoundTrip) : World :=
  { now := 1000, since := 5,
    newRequest := fun _ => .ok sampleRequest,
    splitHostPort := fun _ => .ok "shop.example",
    lookupIP := fun _ => none,
    clientDo := fun _ => rt,
    runSession := fun _ => quietSession }

/-- A certificate with six days left. -/
def sixDayCert : PeerCert :=
  { commonName := "shop.example", notAfter := 6 * 24 * 3600 * 1000000000,
    notAfterText := "1970-01-07 00:00:00 +0000 UTC", now := 0 }

/-- A certificate with ninety days left. -/
def ninetyDayCert : PeerCert :=
  { commonName := "shop.example", notAfter := 90 * 24 * 3600 * 1000000000,
    notAfterText := "1970-04-01 00:00:00 +0000 UTC", now := 0 }

/-- A round trip with one successful handshake showing the given chain, answered
with the given status. -/
def handshakeThen (certs : List PeerCert) (status : Int) : RoundTrip :=
  { dials := [.tls (.connected certs)], outcome := .ok { StatusCode := status } }

/-- A round trip on a connection kept from before: no dial, the given status. -/
def reusedConnection (status : Int) : RoundTrip :=
  { dials := [], outcome := .ok { StatusCode := status } }

/-- A round trip whose dial times out: `dialer.Dial` returns a `*net.OpError` whose
`Err` reports `Timeout()`, and `client.Do` fails. -/
def dialTimesOut : RoundTrip :=
  { dials := [.plain (.opErrOther { msg := "i/o timeout", timeout := true })],
    outcome := .error { msg := "Get http://shop.example:8080/: dial tcp: i/o timeout",
                        timeout := true } }

/-- A service reached over plain http, for which the transport calls `dial`. -/
def plainService : Service :=
  { ID := "shop", Endpoint := "http://shop.example:8080/", Interval := 30000000000 }

def plainRequest : Request := { Host := "shop.example:8080" }

/-- An environment for the plain-http services in which everything works and the
round trip is the given one. -/
def plainWorldWith (rt : RoundTrip) : World :=
  { now := 1000, since := 5,
    newRequest := fun _ => .ok plainRequest,
    splitHostPort := fun _ => .ok "shop.example",
    lookupIP := fun _ => none,
    clientDo := fun _ => rt,
    runSession := fun _ => quietSession }

/-- A service whose endpoint has moved. -/
def movedService : Service :=
  { ID := "shop", Endpoint := "http://shop.example:8080/old", Interval := 30000000000 }

/-- A server that answers 301 with a `Location` at the old address and 200
elsewhere. -/
def movedServer (url : String) : Answer :=
  if url = "http://shop.example:8080/old" then
    { StatusCode := 301, Location := some "http://shop.example:8080/new" }
  else { StatusCode := 200, Location := none }

/-- The round trip of the client of `getClientAndDialErrRecorder` against
`movedServer`: one dial, then what `client.Do` returns for the endpoint. -/
def movedRoundTrip : RoundTrip :=
  { dials := [.plain .connected],
    outcome := clientDoFollowing movedServer 10 movedService.Endpoint }

/-- A round trip that fails after the given callback invocations. -/
def failsAfter (dials : List DialCall) : RoundTrip :=
  { dials := dials, outcome := .error { msg := "Get: failed", timeout := false } }

/-! ## Basic facts about the embedding -/

theorem splitChars_ne_nil (sep : Char) (l : List Char) : splitChars sep l ≠ [] := by
  cases l with
  | nil => simp [splitChars]
  | cons c cs =>
    unfold splitChars
    split
    · simp
    · split <;> simp

theorem splitChars_length (sep : Char) (l : List Char) :
    1 < (splitChars sep l).length ↔ sep ∈ l := by
  induction l with
  | nil => simp [splitChars]
  | cons c cs ih =>
    unfold splitChars
    by_cases hc : c = sep
    · subst hc
      have hne := splitChars_ne_nil c cs
      have hpos : 0 < (splitChars c cs).length := List.length_pos.mpr hne
      simp
      omega
    · have hsc : ¬ sep = c := fun h => hc h.symm
      simp only [hc, if_false, List.mem_cons, hsc, false_or]
      rw [← ih]
      split
      · rename_i heq
        exact absurd heq (splitChars_ne_nil sep cs)
      · rename_i p ps heq
        simp [heq]

theorem stringsSplitColon_length (host : String) :
    1 < (stringsSplitColon host).length ↔ ':' ∈ host.toList := by
  simp [stringsSplitColon, splitChars_length]

theorem watch_of_reachesRoundTrip (service : Service) (w : World) (request : Request)
    (errRecorder : dialerErrRecorder) (h : ReachesRoundTrip service w request) :
    watch service w errRecorder =
      doAndReport service w (NewResult service.ID w.now) request errRecorder := by
  obtain ⟨hreq, hhost⟩ := h
  unfold watch
  simp only [hreq]
  rcases hhost with h0 | ⟨hno, hl⟩ | ⟨hyes, host, hs, hl⟩
  · have h0x : ¬ request.Host.length > 0 := by omega
    simp only [h0x, if_false]
  · have hlen : ¬ (stringsSplitColon request.Host).length > 1 := by
      rw [gt_iff_lt, stringsSplitColon_length]; exact hno
    simp only [hlen, if_false, hl]
    split <;> rfl
  · have hlen : (stringsSplitColon request.Host).length > 1 := by
      rw [gt_iff_lt, stringsSplitColon_length]; exact hyes
    have hpos : request.Host.length > 0 := by
      have : request.Host.toList ≠ [] := List.ne_nil_of_mem hyes
      exact List.length_pos.mpr this
    simp only [hpos, hlen, if_true, hs, hl]

theorem durationUntilExpiry_lt_iff (c : PeerCert) :
    durationUntilExpiry c < expiryWindow ↔ nearExpiry c := by
  unfold durationUntilExpiry timeSub nearExpiry expiryWindow Hour maxDuration minDuration
  norm_num
  split_ifs <;> omega

theorem checkCertificates_eq (errors : List Error) (certs : List PeerCert) :
    checkCertificates errors certs =
      errors ++ (certs.filter fun c => nearExpiry c).map certWarning := by
  induction certs generalizing errors with
  | nil => simp [checkCertificates]
  | cons c cs ih =>
    unfold checkCertificates
    by_cases h : nearExpiry c
    · have h' := (durationUntilExpiry_lt_iff c).mpr h
      simp only [h', if_true, ih]
      simp [List.filter_cons, h, addError, certWarning, ErrorTypeCertificateIsExpiring]
    · have h' : ¬ durationUntilExpiry c < expiryWindow :=
        fun hd => h ((durationUntilExpiry_lt_iff c).mp hd)
      simp only [h', if_false, ih]
      simp [List.filter_cons, h]

theorem dialCall_run_errors (rec : dialerErrRecorder) (call : DialCall) :
    (call.run rec).errors = rec.errors ++ (expiringCerts [call]).map certWarning := by
  cases call with
  | tls o =>
    cases o with
    | connected certs => simp [DialCall.run, dialTLS, expiringCerts, checkCertificates_eq]
    | failed k e => cases k <;> simp [DialCall.run, dialTLS, expiringCerts]
  | plain o => cases o <;> simp [DialCall.run, dial, expiringCerts]

theorem expiringCerts_cons (call : DialCall) (calls : List DialCall) :
    expiringCerts (call :: calls) = expiringCerts [call] ++ expiringCerts calls := by
  cases call with
  | tls o =>
    cases o with
    | connected certs => simp [expiringCerts]
    | failed k e => simp [expiringCerts]
  | plain o => simp [expiringCerts]

theorem runDials_errors (rec : dialerErrRecorder) (calls : List DialCall) :
    (runDials rec calls).errors = rec.errors ++ (expiringCerts calls).map certWarning := by
  induction calls generalizing rec with
  | nil => simp [runDials, expiringCerts]
  | cons call calls ih =>
    have hstep : runDials rec (call :: calls) = runDials (call.run rec) calls := rfl
    rw [hstep, ih, dialCall_run_errors, expiringCerts_cons call calls]
    simp

/-! ## The probe executor: rejected endpoints and the DNS pre-check -/

/-- C1. When `http.NewRequest` rejects the endpoint, or the request host contains
':' and `net.SplitHostPort` rejects it, the Result of `watch` has exactly one
Error, tagged "endpointInvalid" and carrying the message of that rejection, its
Timeout flag is false, and the recorder is neither read nor written. -/
theorem watch_invalid_endpoint (service : Service) (w : World)
    (errRecorder : dialerErrRecorder) (err : GoError)
    (h : w.newRequest service.Endpoint = .error err ∨
         ∃ request, w.newRequest service.Endpoint = .ok request ∧
           ':' ∈ request.Host.toList ∧ w.splitHostPort request.Host = .error err) :
    (watch service w errRecorder).1.Errors =
        [{ Error := err.msg, Type_ := "endpointInvalid", Comment := "" }] ∧
    (watch service w errRecorder).1.Timeout = false ∧
    (watch service w errRecorder).2 = errRecorder := by
  rcases h with h | ⟨request, hreq, hcolon, hsplit⟩
  · unfold watch
    simp only [h]
    simp [Result.addError, addError, NewResult, ErrorInvalidEndpoint]
  · have hlen : (stringsSplitColon request.Host).length > 1 := by
      rw [gt_iff_lt, stringsSplitColon_length]; exact hcolon
    have hpos : request.Host.length > 0 :=
      List.length_pos.mpr (List.ne_nil_of_mem hcolon)
    unfold watch
    simp only [hreq, hpos, hlen, if_true, hsplit]
    simp [Result.addError, addError, NewResult, ErrorInvalidEndpoint]

theorem watch_invalid_endpoint_witness :
    (watch sampleService
        { worldWith (reusedConnection 200) with
            splitHostPort := fun _ => .error { msg := "too many colons", timeout := false } }
        newRecorder).1.Errors =
        [{ Error := "too many colons", Type_ := "endpointInvalid", Comment := "" }] ∧
    (watch sampleService
        { worldWith (reusedConnection 200) with
            splitHostPort := fun _ => .error { msg := "too many colons", timeout := false } }
        newRecorder).1.Timeout = false ∧
    (watch sampleService
        { worldWith (reusedConnection 200) with
            splitHostPort := fun _ => .error { msg := "too many colons", timeout := false } }
        newRecorder).2 = newRecorder :=
  watch_invalid_endpoint sampleService
    { worldWith (reusedConnection 200) with
        splitHostPort := fun _ => .error { msg := "too many colons", timeout := false } }
    newRecorder { msg := "too many colons", timeout := false }
    (Or.inr ⟨sampleRequest, rfl, by decide, rfl⟩)

/-- C2. When the endpoint parses and the DNS pre-check fails on the host it looks
up (the request host itself, or its host part when it contains ':'), the Result
of `watch` has exactly one Error, tagged "dns"; `client.Do` is not called: the
recorder is returned as it was, and the Result is the same whatever the client,
the session runner and the recorder are. -/
theorem watch_dns_precheck_fails (service : Service) (w : World)
    (errRecorder : dialerErrRecorder) (request : Request) (host : String)
    (lookupErr : GoError)
    (hreq : w.newRequest service.Endpoint = .ok request)
    (hhost : (':' ∉ request.Host.toList ∧ 0 < request.Host.length ∧ host = request.Host) ∨
             (':' ∈ request.Host.toList ∧ w.splitHostPort request.Host = .ok host))
    (hlookup : w.lookupIP host = some lookupErr) :
    (watch service w errRecorder).1.Errors =
        [{ Error := lookupErr.msg, Type_ := "dns", Comment := "" }] ∧
    (watch service w errRecorder).2 = errRecorder ∧
    ∀ (clientDo : Request → RoundTrip) (runSession : Service → SessionOutcome)
      (other : dialerErrRecorder),
      (watch service { w with clientDo := clientDo, runSession := runSession } other).1 =
        (watch service w errRecorder).1 := by
  rcases hhost with ⟨hno, hpos, rfl⟩ | ⟨hyes, hsplit⟩
  · have hlen : ¬ (stringsSplitColon request.Host).length > 1 := by
      rw [gt_iff_lt, stringsSplitColon_length]; exact hno
    have hpos' : request.Host.length > 0 := hpos
    unfold watch
    simp only [hreq, hpos', hlen, if_true, if_false, hlookup]
    simp [Result.addError, addError, NewResult, ErrorTypeDNS]
  · have hlen : (stringsSplitColon request.Host).length > 1 := by
      rw [gt_iff_lt, stringsSplitColon_length]; exact hyes
    have hpos : request.Host.length > 0 :=
      List.length_pos.mpr (List.ne_nil_of_mem hyes)
    unfold watch
    simp only [hreq, hpos, hlen, if_true, hsplit, hlookup]
    simp [Result.addError, addError, NewResult, ErrorTypeDNS]

theorem watch_dns_precheck_fails_witness :
    (watch sampleService
        { worldWith dialTimesOut with
            lookupIP := fun _ => some { msg := "no such host", timeout := false } }
        newRecorder).1.Errors =
        [{ Error := "no such host", Type_ := "dns", Comment := "" }] :=
  (watch_dns_precheck_fails sampleService
    { worldWith dialTimesOut with
        lookupIP := fun _ => some { msg := "no such host", timeout := false } }
    newRecorder sampleRequest "shop.example" { msg := "no such host", timeout := false }
    rfl (Or.inr ⟨by decide, rfl⟩) rfl).1

/-! ## The probe executor: a failed round trip -/

theorem firstNonEmptySlot_classify (r : Result) (rec : dialerErrRecorder) :
    classify r rec =
      match firstNonEmptySlot rec with
      | some (t, e) =>
        (r.addError e t "",
          if rec.tlsHostnameError = none ∧ rec.tlsSystemRootsError = none ∧
             rec.tlsUnknownAuthorityError = none ∧ rec.tlsCertificateInvalidError = none ∧
             rec.unknownErr = none then some e else none)
      | none => (r, none) := by
  unfold classify firstNonEmptySlot slotsInPriorityOrder
  rcases h1 : rec.tlsHostnameError with _ | e1
  · rcases h2 : rec.tlsSystemRootsError with _ | e2
    · rcases h3 : rec.tlsUnknownAuthorityError with _ | e3
      · rcases h4 : rec.tlsCertificateInvalidError with _ | e4
        · rcases h5 : rec.unknownErr with _ | e5
          · rcases h6 : rec.dnsConfigError with _ | e6
            · rcases h7 : rec.dnsError with _ | e7
              · rcases h8 : rec.err with _ | e8
                · simp [List.findSome?]
                · simp [List.findSome?, ErrorTypeUnknownError]
              · simp [List.findSome?, ErrorTypeDNS]
            · simp [List.findSome?, ErrorTypeDNSConfig]
          · simp [List.findSome?, ErrorTypeUnknownError]
        · simp [List.findSome?, ErrorTypeTLSCertificateInvalid]
      · simp [List.findSome?, ErrorTypeTLSUnknownAuthority]
    · simp [List.findSome?, ErrorTypeTLSSystemRootsError]
  · simp [List.findSome?, ErrorTypeTLSHostNameError]

theorem firstNonEmptySlot_isSome (rec : dialerErrRecorder) (h : 0 < nonEmptySlots rec) :
    ∃ t e, firstNonEmptySlot rec = some (t, e) := by
  unfold nonEmptySlots at h
  rw [List.countP_pos_iff] at h
  obtain ⟨p, hp, hsome⟩ := h
  cases hf : firstNonEmptySlot rec with
  | some te => exact ⟨te.1, te.2, rfl⟩
  | none =>
    unfold firstNonEmptySlot at hf
    rw [List.findSome?_eq_none_iff] at hf
    have := hf p hp
    rcases hp2 : p.2 with _ | e
    · simp [hp2] at hsome
    · simp [hp2] at this

theorem doAndReport_error (service : Service) (w : World) (r : Result) (request : Request)
    (errRecorder : dialerErrRecorder) (err : GoError)
    (hfail : (w.clientDo request).outcome = .error err) :
    doAndReport service w r request errRecorder =
      match classify
          ({ r with Errors := r.Errors ++
                (runDials errRecorder (w.clientDo request).dials).errors }.addError
            err ErrorTypeClientError "")
          (runDials errRecorder (w.clientDo request).dials) with
      | (r', some ne) =>
        ({ r' with Timeout := ne.timeout }, runDials errRecorder (w.clientDo request).dials)
      | (r', none) => (r', runDials errRecorder (w.clientDo request).dials) := by
  unfold doAndReport
  simp only [hfail]
  rcases classify _ _ with ⟨r', _ | ne⟩ <;> rfl

theorem doAndReport_ok (service : Service) (w : World) (r : Result) (request : Request)
    (errRecorder : dialerErrRecorder) (response : Response)
    (hok : (w.clientDo request).outcome = .ok response) :
    doAndReport service w r request errRecorder =
      ({ r with
          Errors := r.Errors ++ (runDials errRecorder (w.clientDo request).dials).errors ++
            sessionErrors (w.runSession service) ++
            (if response.StatusCode ≠ 200 then [wrongStatusError response.StatusCode] else []),
          RunTime := w.since },
       runDials (runDials errRecorder (w.clientDo request).dials)
         (w.runSession service).dials) := by
  unfold doAndReport
  simp only [hok]
  rcases hf : (w.runSession service).failure with _ | errSession <;>
    by_cases hs : response.StatusCode = 200 <;>
    simp [hs, hf, sessionErrors, Result.addError, addError, wrongStatusError,
      ErrorTypeSessionFail, ErrorTypeWrongHTTPStatusCode]

/-- C3. When the round trip fails and some failure slot of the recorder is
non-empty once `client.Do` has returned, the Errors of the Result are the
recorder's warning list followed by exactly two Errors: the "clientError" for the
error of `client.Do`, then one Error for the first non-empty slot in the order
TLS hostname, TLS system roots, TLS unknown authority, TLS certificate invalid,
generic unknown, DNS config, DNS, generic network error, with that slot's tag
and message. No other slot contributes. -/
theorem watch_failed_round_trip_tie_break (service : Service) (w : World)
    (errRecorder : dialerErrRecorder) (request : Request) (err : GoError)
    (hreach : ReachesRoundTrip service w request)
    (hfail : (w.clientDo request).outcome = .error err)
    (hslot : 0 < nonEmptySlots (runDials errRecorder (w.clientDo request).dials)) :
    ∃ t e, firstNonEmptySlot (runDials errRecorder (w.clientDo request).dials) = some (t, e) ∧
      (watch service w errRecorder).1.Errors =
        (runDials errRecorder (w.clientDo request).dials).errors ++
          [{ Error := err.msg, Type_ := "clientError", Comment := "" },
           { Error := e.msg, Type_ := t, Comment := "" }] := by
  obtain ⟨t, e, hte⟩ := firstNonEmptySlot_isSome _ hslot
  refine ⟨t, e, hte, ?_⟩
  rw [watch_of_reachesRoundTrip service w request errRecorder hreach,
    doAndReport_error service w _ request errRecorder err hfail,
    firstNonEmptySlot_classify, hte]
  simp only
  split_ifs <;>
    simp [Result.addError, addError, NewResult, ErrorTypeClientError]

theorem reachesRoundTrip_worldWith (rt : RoundTrip) :
    ReachesRoundTrip sampleService (worldWith rt) sampleRequest :=
  ⟨rfl, Or.inr (Or.inr ⟨by decide, "shop.example", rfl, rfl⟩)⟩

theorem reachesRoundTrip_plainWorldWith (rt : RoundTrip) (service : Service) :
    ReachesRoundTrip service (plainWorldWith rt) plainRequest :=
  ⟨rfl, Or.inr (Or.inr ⟨by decide, "shop.example", rfl, rfl⟩)⟩

theorem watch_failed_round_trip_tie_break_witness :
    (watch sampleService
        (worldWith (failsAfter
          [.tls (.failed .hostname { msg := "x509: wrong host", timeout := false })]))
        (dial newRecorder (.opErrDNS { msg := "no such host", timeout := false }))).1.Errors =
      [{ Error := "Get: failed", Type_ := "clientError", Comment := "" },
       { Error := "x509: wrong host", Type_ := "tlsHostNameError", Comment := "" }] := by
  obtain ⟨t, e, hte, herr⟩ :=
    watch_failed_round_trip_tie_break sampleService
      (worldWith (failsAfter
        [.tls (.failed .hostname { msg := "x509: wrong host", timeout := false })]))
      (dial newRecorder (.opErrDNS { msg := "no such host", timeout := false }))
      sampleRequest { msg := "Get: failed", timeout := false }
      (reachesRoundTrip_worldWith _) rfl (by decide)
  have hfirst : firstNonEmptySlot
      (runDials (dial newRecorder (.opErrDNS { msg := "no such host", timeout := false }))
        ((worldWith (failsAfter
          [.tls (.failed .hostname { msg := "x509: wrong host", timeout := false })])).clientDo
            sampleRequest).dials) =
      some ("tlsHostNameError", { msg := "x509: wrong host", timeout := false }) := rfl
  rw [hfirst] at hte
  cases hte
  exact herr

/-- The Timeout flag after a failed round trip: it is the `Timeout()` of the error
in the first non-empty slot when that slot is one of DNS config, DNS and generic
network error (the four TLS slots and the generic-unknown slot being empty), and
false in every other case. -/
theorem watch_failed_round_trip_timeout (service : Service) (w : World)
    (errRecorder : dialerErrRecorder) (request : Request) (err : GoError)
    (hreach : ReachesRoundTrip service w request)
    (hfail : (w.clientDo request).outcome = .error err) :
    (watch service w errRecorder).1.Timeout =
      match firstNonEmptySlot (runDials errRecorder (w.clientDo request).dials) with
      | some (_, e) =>
        if (runDials errRecorder (w.clientDo request).dials).tlsHostnameError = none ∧
           (runDials errRecorder (w.clientDo request).dials).tlsSystemRootsError = none ∧
           (runDials errRecorder (w.clientDo request).dials).tlsUnknownAuthorityError = none ∧
           (runDials errRecorder (w.clientDo request).dials).tlsCertificateInvalidError = none ∧
           (runDials errRecorder (w.clientDo request).dials).unknownErr = none
        then e.timeout else false
      | none => false := by
  rw [watch_of_reachesRoundTrip service w request errRecorder hreach,
    doAndReport_error service w _ request errRecorder err hfail,
    firstNonEmptySlot_classify]
  rcases firstNonEmptySlot (runDials errRecorder (w.clientDo request).dials) with _ | ⟨t, e⟩
  · simp [Result.addError, NewResult]
  · simp only
    split_ifs <;> simp [Result.addError, NewResult]

/-- C4. A probe of a plain-http endpoint whose dial times out: `dialer.Dial`
returns a `*net.OpError` whose inner error reports `Timeout()`, so the generic-unknown slot holds a
timeout error and the tie-break selects it ("unknownError"); the Result carries
that Error, yet its Timeout flag is false. -/
theorem watch_dial_timeout_not_flagged :
    firstNonEmptySlot (runDials newRecorder dialTimesOut.dials) =
      some ("unknownError", { msg := "i/o timeout", timeout := true }) ∧
    (watch plainService (plainWorldWith dialTimesOut) newRecorder).1.Errors =
      [{ Error := "Get http://shop.example:8080/: dial tcp: i/o timeout",
         Type_ := "clientError", Comment := "" },
       { Error := "i/o timeout", Type_ := "unknownError", Comment := "" }] ∧
    (watch plainService (plainWorldWith dialTimesOut) newRecorder).1.Timeout = false := by
  rw [watch_of_reachesRoundTrip _ _ _ _ (reachesRoundTrip_plainWorldWith dialTimesOut plainService)]
  refine ⟨rfl, rfl, rfl⟩

/-! ## The probe executor: a completed round trip -/

/-- The status check of `watch` on the response that `client.Do` hands back,
which after a followed redirect is the answer of the last location asked: the
Errors of the Result are the recorder's warning list, then what the session runner
contributed, then the "wrongHTTPStatus" Error exactly when the status code of
that response is not 200; on a recorder reached from a fresh one a status of 200
leaves the Result without "wrongHTTPStatus" Error unless the session runner put
one there. -/
theorem watch_status_check (service : Service) (w : World)
    (errRecorder : dialerErrRecorder) (request : Request) (response : Response)
    (hreach : ReachesRoundTrip service w request)
    (hok : (w.clientDo request).outcome = .ok response) :
    (response.StatusCode ≠ 200 →
      wrongStatusError response.StatusCode ∈ (watch service w errRecorder).1.Errors ∧
      (wrongStatusError response.StatusCode).Type_ = "wrongHTTPStatus") ∧
    (response.StatusCode = 200 →
      (watch service w errRecorder).1.Errors =
        (runDials errRecorder (w.clientDo request).dials).errors ++
          sessionErrors (w.runSession service)) ∧
    (response.StatusCode = 200 →
      (∃ history, errRecorder = runDials newRecorder history) →
      (∀ e ∈ (w.runSession service).added, e.Type_ ≠ "wrongHTTPStatus") →
      ∀ e ∈ (watch service w errRecorder).1.Errors, e.Type_ ≠ "wrongHTTPStatus") := by
  rw [watch_of_reachesRoundTrip service w request errRecorder hreach,
    doAndReport_ok service w _ request errRecorder response hok]
  refine ⟨?_, ?_, ?_⟩
  · intro hne
    simp [hne, wrongStatusError]
  · intro h200
    simp [h200, NewResult]
  · intro h200 hhist hadded e he
    have hrec : ∀ e ∈ errRecorder.errors, e.Type_ = "certificateIsExpiring" := by
      obtain ⟨history, rfl⟩ := hhist
      intro e he
      rw [runDials_errors] at he
      simp only [newRecorder, List.nil_append, List.mem_map] at he
      obtain ⟨c, _, rfl⟩ := he
      rfl
    simp only [h200, ne_eq, not_true_eq_false, if_false, List.append_nil, NewResult,
      List.nil_append, runDials_errors, sessionErrors, List.mem_append, List.mem_map] at he
    rcases he with (he | ⟨c, _, rfl⟩) | he | he
    · rw [hrec e he]; decide
    · simp [certWarning]
    · exact hadded e he
    · rcases hf : (w.runSession service).failure with _ | errSession
      · simp [hf] at he
      · simp [hf] at he
        rw [he]; simp

/-- C5. A probe of an endpoint that answers 301 with a `Location`: the client
of `getClientAndDialErrRecorder` has no `CheckRedirect`, so `client.Do` follows
the redirect and hands back the 200 of the new location; the status check of
`watch` never sees the 301 and the Result has no Error at all, hence no
"wrongHTTPStatus". -/
theorem watch_follows_redirect :
    (movedServer movedService.Endpoint).StatusCode = 301 ∧
    movedRoundTrip.outcome = .ok { StatusCode := 200 } ∧
    (watch movedService (plainWorldWith movedRoundTrip) newRecorder).1.Errors = [] := by
  rw [watch_of_reachesRoundTrip _ _ _ _ (reachesRoundTrip_plainWorldWith movedRoundTrip _)]
  have hout : movedRoundTrip.outcome = .ok { StatusCode := 200 } := by
    simp [movedRoundTrip, clientDoFollowing, movedServer, movedService, isRedirectStatus]
  refine ⟨by simp [movedServer, movedService], hout, ?_⟩
  rw [doAndReport_ok movedService (plainWorldWith movedRoundTrip) _ plainRequest newRecorder
    { StatusCode := 200 } hout]
  rfl

/-! ## Certificate warnings -/

theorem mem_expiringCerts (calls : List DialCall) (certs : List PeerCert) (c : PeerCert)
    (hcall : DialCall.tls (.connected certs) ∈ calls) (hc : c ∈ certs) (hnear : nearExpiry c) :
    c ∈ expiringCerts calls := by
  induction calls with
  | nil => simp at hcall
  | cons call calls ih =>
    rw [expiringCerts_cons]
    rcases List.mem_cons.mp hcall with h | h
    · subst h
      simp [expiringCerts, hc, hnear]
    · exact List.mem_append_right _ (ih h)

theorem classify_errors (r : Result) (rec : dialerErrRecorder) :
    ∀ e ∈ r.Errors, e ∈ (classify r rec).1.Errors := by
  intro e he
  rw [firstNonEmptySlot_classify]
  rcases firstNonEmptySlot rec with _ | ⟨t, e'⟩
  · exact he
  · simp [Result.addError, addError, he]

theorem watch_errors_contain_warnings (service : Service) (w : World)
    (errRecorder : dialerErrRecorder) (request : Request)
    (hreach : ReachesRoundTrip service w request) :
    ∀ e ∈ (runDials errRecorder (w.clientDo request).dials).errors,
      e ∈ (watch service w errRecorder).1.Errors := by
  intro e he
  rw [watch_of_reachesRoundTrip service w request errRecorder hreach]
  rcases hout : (w.clientDo request).outcome with err | response
  · rw [doAndReport_error service w _ request errRecorder err hout]
    have hc := classify_errors
      ({ NewResult service.ID w.now with
          Errors := (NewResult service.ID w.now).Errors ++
            (runDials errRecorder (w.clientDo request).dials).errors }.addError
        err ErrorTypeClientError "")
      (runDials errRecorder (w.clientDo request).dials) e
      (by simp [Result.addError, addError, NewResult, he])
    revert hc
    rcases classify _ _ with ⟨r', _ | ne⟩ <;> exact fun hc => hc
  · rw [doAndReport_ok service w _ request errRecorder response hout]
    simp [NewResult, he]

/-- C7. A successful TLS handshake makes `dialTLS` append to the recorder's
warning list one Error tagged "certificateIsExpiring" for each peer certificate
whose notAfter is less than 7×24 hours after the clock reading (an expired one
included), in chain order, and nothing for the other certificates. When the
handshake happens during the `client.Do` of a probe, the Result of that probe
contains the Error of every such certificate, whether `client.Do` then returns a
response or an error. -/
theorem certificate_expiry_warning (service : Service) (w : World)
    (errRecorder : dialerErrRecorder) (request : Request) (certs : List PeerCert)
    (hreach : ReachesRoundTrip service w request)
    (hshake : DialCall.tls (.connected certs) ∈ (w.clientDo request).dials) :
    (∀ rec : dialerErrRecorder,
      (dialTLS rec (.connected certs)).errors =
        rec.errors ++ (certs.filter fun c => nearExpiry c).map certWarning) ∧
    (∀ c ∈ certs, nearExpiry c →
      certWarning c ∈ (watch service w errRecorder).1.Errors ∧
      (certWarning c).Type_ = "certificateIsExpiring") ∧
    (∀ c ∈ certs, ¬ nearExpiry c →
      ∀ rec : dialerErrRecorder, (dialTLS rec (.connected [c])).errors = rec.errors) := by
  refine ⟨fun rec => ?_, fun c hc hnear => ⟨?_, rfl⟩, fun c _ hfar rec => ?_⟩
  · simp [dialTLS, checkCertificates_eq]
  · apply watch_errors_contain_warnings service w errRecorder request hreach
    rw [runDials_errors]
    exact List.mem_append_right _
      (List.mem_map_of_mem _ (mem_expiringCerts _ certs c hshake hc hnear))
  · simp [dialTLS, checkCertificates_eq, hfar]

theorem certificate_expiry_warning_witness :
    certWarning sixDayCert ∈
      (watch sampleService
        (worldWith (handshakeThen [ninetyDayCert, sixDayCert] 200)) newRecorder).1.Errors :=
  ((certificate_expiry_warning sampleService
      (worldWith (handshakeThen [ninetyDayCert, sixDayCert] 200)) newRecorder sampleRequest
      [ninetyDayCert, sixDayCert] (reachesRoundTrip_worldWith _)
      (List.mem_singleton.mpr rfl)).2.1 sixDayCert (by simp) (by decide)).1

/-! ## Healthy probes on a recorder with a past -/

theorem healthyProbe_worldWith (rt : RoundTrip) (h : rt.outcome = .ok { StatusCode := 200 }) :
    HealthyProbe sampleService (worldWith rt) sampleRequest :=
  ⟨reachesRoundTrip_worldWith rt, ⟨{ StatusCode := 200 }, h, rfl⟩, rfl, rfl⟩

theorem watch_healthy (service : Service) (w : World) (errRecorder : dialerErrRecorder)
    (request : Request) (h : HealthyProbe service w request) :
    watch service w errRecorder =
      ({ ID := service.ID,
         Errors := errRecorder.errors ++
           (expiringCerts (w.clientDo request).dials).map certWarning,
         Timeout := false, Timestamp := w.now, RunTime := w.since },
       runDials (runDials errRecorder (w.clientDo request).dials)
         (w.runSession service).dials) := by
  obtain ⟨hreach, ⟨response, hok, h200⟩, hfail, hadded⟩ := h
  rw [watch_of_reachesRoundTrip service w request errRecorder hreach,
    doAndReport_ok service w _ request errRecorder response hok]
  simp [h200, NewResult, sessionErrors, hfail, hadded, runDials_errors]

/-- C6, as stated, fails: a watcher whose first probe saw a certificate with six
days left keeps the warning in its recorder; its next probe is healthy and sees
only a renewed certificate (ninety days left), and its Result still carries the
old warning. -/
theorem watch_healthy_probe_keeps_old_warning :
    HealthyProbe sampleService (worldWith (handshakeThen [ninetyDayCert] 200)) sampleRequest ∧
    expiringCerts
      ((worldWith (handshakeThen [ninetyDayCert] 200)).clientDo sampleRequest).dials = [] ∧
    (watch sampleService (worldWith (handshakeThen [ninetyDayCert] 200))
      (watch sampleService (worldWith (handshakeThen [sixDayCert] 200)) newRecorder).2).1.Errors
      = [certWarning sixDayCert] ∧
    (watch sampleService (worldWith (handshakeThen [ninetyDayCert] 200))
      (watch sampleService (worldWith (handshakeThen [sixDayCert] 200)) newRecorder).2).1.Errors
      ≠ [] := by
  have h1 := watch_healthy sampleService (worldWith (handshakeThen [sixDayCert] 200))
    newRecorder sampleRequest (healthyProbe_worldWith _ rfl)
  have h2 := watch_healthy sampleService (worldWith (handshakeThen [ninetyDayCert] 200))
    (watch sampleService (worldWith (handshakeThen [sixDayCert] 200)) newRecorder).2
    sampleRequest (healthyProbe_worldWith _ rfl)
  have hfar : expiringCerts
      ((worldWith (handshakeThen [ninetyDayCert] 200)).clientDo sampleRequest).dials = [] := by
    decide
  have hnear : expiringCerts
      ((worldWith (handshakeThen [sixDayCert] 200)).clientDo sampleRequest).dials
        = [sixDayCert] := by
    decide
  have herr : (watch sampleService (worldWith (handshakeThen [ninetyDayCert] 200))
      (watch sampleService (worldWith (handshakeThen [sixDayCert] 200)) newRecorder).2).1.Errors
      = [certWarning sixDayCert] := by
    rw [h2, hfar, h1, runDials_errors, runDials_errors, hnear]
    rfl
  exact ⟨healthyProbe_worldWith _ rfl, hfar, herr, by rw [herr]; simp⟩

/-- C6, amended. In a healthy probe whose own handshakes show no certificate
within 7 days of expiry, the Errors of the Result are the warnings the watcher's
recorder gathered in all earlier dial callbacks since it was created; they are
empty exactly when no earlier handshake of this watcher met a near-expiry
certificate, as is the case for a fresh recorder. -/
theorem watch_healthy_probe_errors (service : Service) (w : World) (request : Request)
    (history : List DialCall)
    (hhealthy : HealthyProbe service w request)
    (hnow : expiringCerts (w.clientDo request).dials = []) :
    (watch service w (runDials newRecorder history)).1.Errors =
      (expiringCerts history).map certWarning ∧
    ((watch service w (runDials newRecorder history)).1.Errors = [] ↔
      expiringCerts history = []) ∧
    (watch service w newRecorder).1.Errors = [] := by
  have hgen : ∀ rec, (watch service w rec).1.Errors = rec.errors := by
    intro rec
    rw [watch_healthy service w rec request hhealthy, hnow]
    simp
  refine ⟨?_, ?_, ?_⟩
  · rw [hgen, runDials_errors]; simp [newRecorder]
  · rw [hgen, runDials_errors]; simp [newRecorder]
  · rw [hgen]; rfl

theorem watch_healthy_probe_errors_witness :
    (watch sampleService (worldWith (handshakeThen [ninetyDayCert] 200))
      (runDials newRecorder [.plain (.opErrDNS { msg := "no such host", timeout := false })])
      ).1.Errors = [] :=
  (watch_healthy_probe_errors sampleService (worldWith (handshakeThen [ninetyDayCert] 200))
    sampleRequest [.plain (.opErrDNS { msg := "no such host", timeout := false })]
    (healthyProbe_worldWith _ rfl) (by decide)).1

/-! ## Successive probes of one watcher -/

theorem probeCycles_replicate (service : Service) (w : World) (request : Request)
    (hhealthy : HealthyProbe service w request) (n : Nat) :
    ∀ rec : dialerErrRecorder, ∃ r₁ r₂,
      (probeCycles service rec (List.replicate (n + 2) w))[n]? = some r₁ ∧
      (probeCycles service rec (List.replicate (n + 2) w))[n + 1]? = some r₂ ∧
      r₁.ID = r₂.ID ∧ r₁.Timeout = r₂.Timeout ∧
      r₂.Errors = r₁.Errors ++
        (expiringCerts ((w.runSession service).dials ++ (w.clientDo request).dials)).map
          certWarning := by
  induction n with
  | zero =>
    intro rec
    refine ⟨(watch service w rec).1, (watch service w (watch service w rec).2).1,
      rfl, rfl, ?_⟩
    simp only [watch_healthy service w _ request hhealthy]
    have happ : ∀ a b : List DialCall,
        expiringCerts (a ++ b) = expiringCerts a ++ expiringCerts b := by
      intro a b
      induction a with
      | nil => simp [expiringCerts]
      | cons c cs ih => rw [List.cons_append, expiringCerts_cons, ih, expiringCerts_cons c cs]; simp
    simp [runDials_errors, happ]
  | succ n ih =>
    intro rec
    obtain ⟨r₁, r₂, h₁, h₂, hrest⟩ := ih (watch service w rec).2
    refine ⟨r₁, r₂, ?_, ?_, hrest⟩
    · simpa [List.replicate_succ, probeCycles] using h₁
    · simpa [List.replicate_succ, probeCycles] using h₂

/-- C9, as stated, fails: against an unchanging healthy endpoint whose certificate
has six days left, every probe performs the same handshake, and the first two
Results of the watcher carry one and two Errors. -/
theorem probeCycles_not_idempotent :
    HealthyProbe sampleService (worldWith (handshakeThen [sixDayCert] 200)) sampleRequest ∧
    (probeCycles sampleService newRecorder
      (List.replicate 2 (worldWith (handshakeThen [sixDayCert] 200)))).map
        (fun r => r.Errors.length) = [1, 2] := by
  refine ⟨healthyProbe_worldWith _ rfl, ?_⟩
  have h1 := watch_healthy sampleService (worldWith (handshakeThen [sixDayCert] 200))
    newRecorder sampleRequest (healthyProbe_worldWith _ rfl)
  have h2 := watch_healthy sampleService (worldWith (handshakeThen [sixDayCert] 200))
    (watch sampleService (worldWith (handshakeThen [sixDayCert] 200)) newRecorder).2
    sampleRequest (healthyProbe_worldWith _ rfl)
  have hnear : expiringCerts
      ((worldWith (handshakeThen [sixDayCert] 200)).clientDo sampleRequest).dials
        = [sixDayCert] := by
    decide
  simp only [List.replicate, probeCycles, List.map]
  rw [h2, h1, hnear, runDials_errors, runDials_errors, hnear]
  rfl

/-- C9, amended. When every cycle of a watcher runs in the same healthy
environment, the Results of probe n and probe n+1 have the same ID and the same
Timeout flag, and the Errors of probe n+1 are those of probe n followed by one
"certificateIsExpiring" Error for each near-expiry certificate met in the
handshakes of one cycle; the two Errors sequences are equal exactly when the
cycle meets no near-expiry certificate. -/
theorem probeCycles_consecutive (service : Service) (w : World) (request : Request)
    (n : Nat) (hhealthy : HealthyProbe service w request) :
    ∃ r₁ r₂,
      (probeCycles service newRecorder (List.replicate (n + 2) w))[n]? = some r₁ ∧
      (probeCycles service newRecorder (List.replicate (n + 2) w))[n + 1]? = some r₂ ∧
      r₁.ID = r₂.ID ∧ r₁.Timeout = r₂.Timeout ∧
      r₂.Errors = r₁.Errors ++
        (expiringCerts ((w.runSession service).dials ++ (w.clientDo request).dials)).map
          certWarning ∧
      (r₁.Errors = r₂.Errors ↔
        expiringCerts ((w.runSession service).dials ++ (w.clientDo request).dials) = []) := by
  obtain ⟨r₁, r₂, h₁, h₂, hid, hto, herr⟩ :=
    probeCycles_replicate service w request hhealthy n newRecorder
  refine ⟨r₁, r₂, h₁, h₂, hid, hto, herr, ?_⟩
  rw [herr]
  constructor
  · intro h
    have hlen := congrArg List.length h
    simp at hlen
    exact hlen
  · intro h
    simp [h]

theorem probeCycles_consecutive_witness :
    ∃ r₁ r₂,
      (probeCycles sampleService newRecorder
        (List.replicate (3 + 2) (worldWith (handshakeThen [ninetyDayCert] 200))))[3]?
          = some r₁ ∧
      (probeCycles sampleService newRecorder
        (List.replicate (3 + 2) (worldWith (handshakeThen [ninetyDayCert] 200))))[3 + 1]?
          = some r₂ ∧
      r₁.ID = r₂.ID ∧ r₁.Timeout = r₂.Timeout ∧ r₁.Errors = r₂.Errors := by
  obtain ⟨r₁, r₂, h₁, h₂, hid, hto, _, hiff⟩ :=
    probeCycles_consecutive sampleService (worldWith (handshakeThen [ninetyDayCert] 200))
      sampleRequest 3 (healthyProbe_worldWith _ rfl)
  exact ⟨r₁, r₂, h₁, h₂, hid, hto, hiff.mpr (by decide)⟩

/-! ## The failure slots over the life of a recorder -/

theorem nonEmptySlots_eq (rec : dialerErrRecorder) :
    nonEmptySlots rec =
      slotCount rec.tlsHostnameError + slotCount rec.tlsSystemRootsError +
      slotCount rec.tlsUnknownAuthorityError + slotCount rec.tlsCertificateInvalidError +
      slotCount rec.unknownErr + slotCount rec.dnsConfigError + slotCount rec.dnsError +
      slotCount rec.err := by
  simp only [nonEmptySlots, slotsInPriorityOrder, List.countP_cons, List.countP_nil, slotCount]
  omega

theorem slotCount_le_one (o : Option GoError) : slotCount o ≤ 1 := by
  unfold slotCount; split <;> omega

theorem slotCount_some (e : GoError) : slotCount (some e) = 1 := rfl

theorem nonEmptySlots_run (rec : dialerErrRecorder) (call : DialCall) :
    nonEmptySlots rec ≤ nonEmptySlots (call.run rec) ∧
    nonEmptySlots (call.run rec) ≤ nonEmptySlots rec + 1 := by
  rw [nonEmptySlots_eq, nonEmptySlots_eq]
  have h1 := slotCount_le_one rec.tlsHostnameError
  have h2 := slotCount_le_one rec.tlsSystemRootsError
  have h3 := slotCount_le_one rec.tlsUnknownAuthorityError
  have h4 := slotCount_le_one rec.tlsCertificateInvalidError
  have h5 := slotCount_le_one rec.unknownErr
  have h6 := slotCount_le_one rec.dnsConfigError
  have h7 := slotCount_le_one rec.dnsError
  have h8 := slotCount_le_one rec.err
  cases call with
  | tls o =>
    cases o with
    | connected certs => simp only [DialCall.run, dialTLS]; omega
    | failed k e => cases k <;> simp only [DialCall.run, dialTLS, slotCount_some] <;> omega
  | plain o => cases o <;> simp only [DialCall.run, dial, slotCount_some] <;> omega

theorem nonEmptySlots_runDials (rec : dialerErrRecorder) (calls : List DialCall) :
    nonEmptySlots (runDials rec calls) ≤ nonEmptySlots rec + calls.length := by
  induction calls generalizing rec with
  | nil => simp [runDials]
  | cons call calls ih =>
    have hstep : runDials rec (call :: calls) = runDials (call.run rec) calls := rfl
    have h1 := ih (call.run rec)
    have h2 := (nonEmptySlots_run rec call).2
    rw [hstep, List.length_cons]
    omega

/-- C10, as stated, fails. A watcher whose first probe failed in the TLS handshake
(hostname mismatch) and whose second probe fails in the dial (DNS error inside a
`*net.OpError`) has two non-empty slots, and the second Result reports the
"tlsHostNameError" of the first probe, not the error of its own dial. -/
theorem recorder_slots_not_exclusive :
    nonEmptySlots
      (runDials newRecorder
        [.tls (.failed .hostname { msg := "x509: wrong host", timeout := false }),
         .plain (.opErrDNS { msg := "no such host", timeout := false })]) = 2 ∧
    ¬ nonEmptySlots
      (runDials newRecorder
        [.tls (.failed .hostname { msg := "x509: wrong host", timeout := false }),
         .plain (.opErrDNS { msg := "no such host", timeout := false })]) ≤ 1 ∧
    (watch sampleService
      (worldWith (failsAfter [.plain (.opErrDNS { msg := "no such host", timeout := false })]))
      (watch sampleService
        (worldWith (failsAfter
          [.tls (.failed .hostname { msg := "x509: wrong host", timeout := false })]))
        newRecorder).2).1.Errors =
      [{ Error := "Get: failed", Type_ := "clientError", Comment := "" },
       { Error := "x509: wrong host", Type_ := "tlsHostNameError", Comment := "" }] := by
  refine ⟨by decide, by decide, ?_⟩
  simp only [watch_of_reachesRoundTrip _ _ _ _ (reachesRoundTrip_worldWith _)]
  rfl

theorem slotsInPriorityOrder_get (rec : dialerErrRecorder) :
    (slotsInPriorityOrder rec).map (fun p => p.2) =
      [Slot.tlsHostname, Slot.tlsSystemRoots, Slot.tlsUnknownAuthority,
       Slot.tlsCertificateInvalid, Slot.unknown, Slot.dnsConfig, Slot.dns, Slot.net].map
        (fun s => s.get rec) :=
  rfl

theorem slot_kept_run (rec : dialerErrRecorder) (call : DialCall) (s : Slot)
    (h : (s.get rec).isSome) : (s.get (call.run rec)).isSome := by
  cases call with
  | tls o =>
    cases o with
    | connected certs => cases s <;> exact h
    | failed k e => cases k <;> cases s <;> first | exact h | rfl
  | plain o => cases o <;> cases s <;> first | exact h | rfl

theorem one_slot_written (rec : dialerErrRecorder) (call : DialCall) :
    ∃ s₀ : Slot, ∀ s : Slot, s ≠ s₀ → s.get (call.run rec) = s.get rec := by
  cases call with
  | tls o =>
    cases o with
    | connected certs => exact ⟨.unknown, fun s _ => by cases s <;> rfl⟩
    | failed k e =>
      cases k
      · exact ⟨.tlsUnknownAuthority, fun s hs => by cases s <;> first | rfl | exact absurd rfl hs⟩
      · exact ⟨.tlsHostname, fun s hs => by cases s <;> first | rfl | exact absurd rfl hs⟩
      · exact ⟨.tlsCertificateInvalid,
          fun s hs => by cases s <;> first | rfl | exact absurd rfl hs⟩
      · exact ⟨.tlsSystemRoots, fun s hs => by cases s <;> first | rfl | exact absurd rfl hs⟩
      · exact ⟨.unknown, fun s _ => by cases s <;> rfl⟩
  | plain o =>
    cases o
    · exact ⟨.unknown, fun s _ => by cases s <;> rfl⟩
    · exact ⟨.dnsConfig, fun s hs => by cases s <;> first | rfl | exact absurd rfl hs⟩
    · exact ⟨.dns, fun s hs => by cases s <;> first | rfl | exact absurd rfl hs⟩
    · exact ⟨.unknown, fun s hs => by cases s <;> first | rfl | exact absurd rfl hs⟩
    · exact ⟨.net, fun s hs => by cases s <;> first | rfl | exact absurd rfl hs⟩

theorem slot_kept_runDials (calls : List DialCall) :
    ∀ (rec : dialerErrRecorder) (s : Slot),
      (s.get rec).isSome → (s.get (runDials rec calls)).isSome := by
  induction calls with
  | nil => exact fun _ _ h => h
  | cons call calls ih =>
    intro rec s h
    exact ih (call.run rec) s (slot_kept_run rec call s h)

theorem runDials_append (rec : dialerErrRecorder) (a b : List DialCall) :
    runDials rec (a ++ b) = runDials (runDials rec a) b := by
  simp [runDials, List.foldl_append]

/-- C10, amended. A dial or TLS-dial invocation writes at most one failure slot
and empties none: every slot that was non-empty is non-empty afterwards, and all
slots but one keep their content. So a fresh recorder has at most one non-empty
slot after a single invocation and at most k after k invocations; a slot filled
in one probe cycle stays non-empty through all later invocations, so that more
than one slot can be non-empty; and a failed probe on such a recorder reports,
after its "clientError", the first non-empty slot in priority order, whichever
invocation filled it. -/
theorem recorder_slots_accumulate (history : List DialCall) :
    (∀ (rec : dialerErrRecorder) (call : DialCall) (s : Slot),
      (s.get rec).isSome → (s.get (call.run rec)).isSome) ∧
    (∀ (rec : dialerErrRecorder) (call : DialCall),
      ∃ s₀ : Slot, ∀ s : Slot, s ≠ s₀ → s.get (call.run rec) = s.get rec) ∧
    (∀ call : DialCall, nonEmptySlots (runDials newRecorder [call]) ≤ 1) ∧
    nonEmptySlots (runDials newRecorder history) ≤ history.length ∧
    (∀ (more : List DialCall) (s : Slot),
      (s.get (runDials newRecorder history)).isSome →
      (s.get (runDials newRecorder (history ++ more))).isSome) ∧
    (∃ calls : List DialCall, 1 < nonEmptySlots (runDials newRecorder calls)) ∧
    (∀ (service : Service) (w : World) (request : Request) (err : GoError),
      ReachesRoundTrip service w request →
      (w.clientDo request).outcome = .error err →
      0 < nonEmptySlots
        (runDials (runDials newRecorder history) (w.clientDo request).dials) →
      ∃ t e,
        firstNonEmptySlot
          (runDials (runDials newRecorder history) (w.clientDo request).dials) =
            some (t, e) ∧
        (watch service w (runDials newRecorder history)).1.Errors =
          (runDials (runDials newRecorder history) (w.clientDo request).dials).errors ++
            [{ Error := err.msg, Type_ := "clientError", Comment := "" },
             { Error := e.msg, Type_ := t, Comment := "" }]) := by
  have hnew : nonEmptySlots newRecorder = 0 := by decide
  refine ⟨slot_kept_run, one_slot_written, fun call => ?_, ?_, fun more s h => ?_,
    ⟨[.tls (.failed .hostname { msg := "", timeout := false }),
      .plain (.opErrDNS { msg := "", timeout := false })], by decide⟩,
    fun service w request err hreach hfail hslot => ?_⟩
  · have := nonEmptySlots_runDials newRecorder [call]
    simpa [hnew] using this
  · have := nonEmptySlots_runDials newRecorder history
    omega
  · rw [runDials_append]
    exact slot_kept_runDials more _ s h
  · obtain ⟨t, e, hte⟩ := firstNonEmptySlot_isSome _ hslot
    refine ⟨t, e, hte, ?_⟩
    rw [watch_of_reachesRoundTrip service w request _ hreach,
      doAndReport_error service w _ request _ err hfail,
      firstNonEmptySlot_classify, hte]
    simp only
    split_ifs <;>
      simp [Result.addError, addError, NewResult, ErrorTypeClientError]

theorem recorder_slots_accumulate_witness :
    (Slot.tlsHostname.get
      (runDials newRecorder
        ([.tls (.failed .hostname { msg := "x509: wrong host", timeout := false })] ++
          [.plain (.opErrDNS { msg := "no such host", timeout := false })]))).isSome :=
  (recorder_slots_accumulate
    [.tls (.failed .hostname { msg := "x509: wrong host", timeout := false })]).2.2.2.2.1
    [.plain (.opErrDNS { msg := "no such host", timeout := false })] Slot.tlsHostname rfl

/-! ## The watcher loop after Stop -/

theorem run_append (s : LoopState) (pre post : List Event) :
    run s (pre ++ post) =
      match run s pre with
      | some s₁ => run s₁ post
      | none => none := by
  induction pre generalizing s with
  | nil => rfl
  | cons e es ih =>
    simp only [List.cons_append, run]
    cases step s e with
    | none => rfl
    | some s₁ => exact ih s₁

theorem step_inactive (s s₁ : LoopState) (e : Event) (hs : s.w.active = false)
    (hstep : step s e = some s₁) :
    s₁.w.active = false ∧ e.isProbeStart = false ∧
    (if e.isPublish then 1 else 0) + (if s₁.point = .send then 1 else 0)
      ≤ (if s.point = .send then 1 else 0) := by
  cases e with
  | stop =>
    simp only [step, Option.some.injEq] at hstep
    subst hstep
    simp [Event.isProbeStart, Event.isPublish]
  | probeStart => simp [step, hs] at hstep
  | loopExit =>
    simp only [step] at hstep
    split_ifs at hstep
    simp only [Option.some.injEq] at hstep
    subst hstep
    simp [Event.isProbeStart, Event.isPublish, hs]
  | probeEnd world =>
    simp only [step] at hstep
    split_ifs at hstep
    simp only [Option.some.injEq] at hstep
    subst hstep
    simp [Event.isProbeStart, Event.isPublish, hs]
  | activeSeen => simp [step, hs] at hstep
  | inactiveSeen =>
    simp only [step] at hstep
    split_ifs at hstep
    simp only [Option.some.injEq] at hstep
    subst hstep
    simp [Event.isProbeStart, Event.isPublish, hs]
  | publish =>
    simp only [step] at hstep
    split_ifs at hstep with hp
    rcases hr : s.r with _ | r
    · simp [hr] at hstep
    · simp only [hr, Option.some.injEq] at hstep
      subst hstep
      simp [Event.isProbeStart, Event.isPublish, hs, hp]
  | sleep =>
    simp only [step] at hstep
    split_ifs at hstep
    simp only [Option.some.injEq] at hstep
    subst hstep
    simp [Event.isProbeStart, Event.isPublish, hs]

theorem run_inactive (post : List Event) :
    ∀ s s' : LoopState, s.w.active = false → run s post = some s' →
      s'.w.active = false ∧ post.countP Event.isProbeStart = 0 ∧
      post.countP Event.isPublish ≤ (if s.point = .send then 1 else 0) := by
  induction post with
  | nil =>
    intro s s' hs hrun
    simp only [run, Option.some.injEq] at hrun
    subst hrun
    simp [hs]
  | cons e es ih =>
    intro s s' hs hrun
    simp only [run] at hrun
    rcases hstep : step s e with _ | s₁
    · simp [hstep] at hrun
    · simp only [hstep] at hrun
      obtain ⟨ha, hstart, hbudget⟩ := step_inactive s s₁ e hs hstep
      obtain ⟨ha', hstart', hpub'⟩ := ih s₁ s' ha hrun
      refine ⟨ha', ?_, ?_⟩
      · simp [List.countP_cons, hstart, hstart']
      · rw [List.countP_cons]
        generalize (if e.isPublish = true then 1 else 0 : Nat) = a at hbudget ⊢
        generalize (if s₁.point = LoopPoint.send then 1 else 0 : Nat) = b at hbudget hpub'
        omega

theorem step_chanResult (s s₁ : LoopState) (e : Event) (hstep : step s e = some s₁) :
    s₁.chanResult.length = s.chanResult.length + (if e.isPublish then 1 else 0) := by
  cases e with
  | stop =>
    simp only [step, Option.some.injEq] at hstep
    subst hstep
    simp [Event.isPublish]
  | probeStart =>
    simp only [step] at hstep
    split_ifs at hstep
    simp only [Option.some.injEq] at hstep
    subst hstep
    simp [Event.isPublish]
  | loopExit =>
    simp only [step] at hstep
    split_ifs at hstep
    simp only [Option.some.injEq] at hstep
    subst hstep
    simp [Event.isPublish]
  | probeEnd world =>
    simp only [step] at hstep
    split_ifs at hstep
    simp only [Option.some.injEq] at hstep
    subst hstep
    simp [Event.isPublish]
  | activeSeen =>
    simp only [step] at hstep
    split_ifs at hstep
    simp only [Option.some.injEq] at hstep
    subst hstep
    simp [Event.isPublish]
  | inactiveSeen =>
    simp only [step] at hstep
    split_ifs at hstep
    simp only [Option.some.injEq] at hstep
    subst hstep
    simp [Event.isPublish]
  | publish =>
    simp only [step] at hstep
    split_ifs at hstep
    rcases hr : s.r with _ | r
    · simp [hr] at hstep
    · simp only [hr, Option.some.injEq] at hstep
      subst hstep
      simp [Event.isPublish]
  | sleep =>
    simp only [step] at hstep
    split_ifs at hstep
    simp only [Option.some.injEq] at hstep
    subst hstep
    simp [Event.isPublish]

theorem run_chanResult (evs : List Event) :
    ∀ s s' : LoopState, run s evs = some s' →
      s'.chanResult.length = s.chanResult.length + evs.countP Event.isPublish := by
  induction evs with
  | nil =>
    intro s s' hrun
    simp only [run, Option.some.injEq] at hrun
    subst hrun
    simp
  | cons e es ih =>
    intro s s' hrun
    simp only [run] at hrun
    rcases hstep : step s e with _ | s₁
    · simp [hstep] at hrun
    · simp only [hstep] at hrun
      have h1 := step_chanResult s s₁ e hstep
      have h2 := ih s₁ s' hrun
      rw [List.countP_cons, h2, h1]
      omega

/-- C8. In every execution of a watcher created by `Watch`, after a step `stop`
no probe starts, at most one Result is sent on the channel (the channel holds at
most one value more than at the moment of the `stop`), and the watcher is
inactive in the state reached; the continuation after `stop` being arbitrary,
this holds at every later point of the execution. -/
theorem watchLoop_after_stop (service : Service) (pre post : List Event) (s' : LoopState)
    (h : run (Watch service) (pre ++ Event.stop :: post) = some s') :
    post.countP Event.isProbeStart = 0 ∧ post.countP Event.isPublish ≤ 1 ∧
    (∃ s₁, run (Watch service) pre = some s₁ ∧
      s'.chanResult.length ≤ s₁.chanResult.length + 1) ∧
    s'.w.active = false := by
  rw [run_append] at h
  rcases hpre : run (Watch service) pre with _ | s₁
  · simp [hpre] at h
  · simp only [hpre, run, step] at h
    obtain ⟨ha, hstart, hpub⟩ :=
      run_inactive post { s₁ with w := { s₁.w with active := false } } s' rfl h
    have hchan := run_chanResult post _ s' h
    have hpub1 : post.countP Event.isPublish ≤ 1 := by
      split_ifs at hpub <;> omega
    refine ⟨hstart, hpub1, ⟨s₁, rfl, ?_⟩, ha⟩
    rw [hchan]
    simp only
    omega

theorem watchLoop_after_stop_witness :
    ∃ s' : LoopState,
      run (Watch sampleService)
        ([.probeStart, .probeEnd (worldWith (reusedConnection 200)), .activeSeen] ++
          Event.stop :: [.publish, .sleep, .loopExit]) = some s' ∧
      s'.chanResult.length = 1 ∧ s'.w.active = false := by
  have hsome : (run (Watch sampleService)
      ([.probeStart, .probeEnd (worldWith (reusedConnection 200)), .activeSeen] ++
        Event.stop :: [.publish, .sleep, .loopExit])).isSome = true := rfl
  obtain ⟨s', hs'⟩ := Option.isSome_iff_exists.mp hsome
  refine ⟨s', hs', ?_, (watchLoop_after_stop sampleService _ _ s' hs').2.2.2⟩
  have hlen : ((run (Watch sampleService)
      ([.probeStart, .probeEnd (worldWith (reusedConnection 200)), .activeSeen] ++
        Event.stop :: [.publish, .sleep, .loopExit])).map
          fun s => s.chanResult.length) = some 1 := rfl
  rw [hs'] at hlen
  simpa using hlen

end Petze
